import Mathlib

/-!
# Verification of the Twitter/X lead-fetcher extraction pipeline

Shallow embedding of `src/leadgen-bot/src/scripts/twitter_fetcher.py`.

Strings are Lean `String`s (Python `str`); instants are `Int` (the model keeps
the ordered time value; ISO serialization is outside the model).  Fallible page
driver operations (Playwright calls that may raise) are modelled as
`Except Unit`; a Python `None`-able return is `Option`.  The external parser
`datetime.fromisoformat` is modelled as an environment-supplied partial
function.  `asyncio.sleep`-based pacing delays cannot raise and carry no data;
they are not modelled.
-/

namespace TwitterFetcher

/-- Python `s.split(sep)` for a non-empty separator, on lists of characters:
scan left to right; whenever the separator is a prefix of the remaining input,
cut there and continue after the separator (non-overlapping matches).
`acc` holds the reversed characters of the current chunk.  The recursion is
structural on a fuel argument so that the function reduces in the kernel; a
non-empty separator consumes at least one character per step, so fuel equal to
the input length (supplied by `pySplit`) never runs out. -/
def pySplitAux (sep : List Char) : Nat → List Char → List Char → List (List Char)
  | _, acc, [] => [acc.reverse]
  | 0, acc, rest => [acc.reverse ++ rest]
  | fuel + 1, acc, c :: rest =>
    if List.isPrefixOf sep (c :: rest) then
      acc.reverse :: pySplitAux sep fuel [] ((c :: rest).drop sep.length)
    else
      pySplitAux sep fuel (c :: acc) rest

/-- Python `s.split(sep)`.  The source only ever splits on the non-empty
separators `"/status/"`, `"?"` and `"/"`; the empty-separator case (a Python
`ValueError`) is given a harmless placeholder value. -/
def pySplit (sep l : List Char) : List (List Char) :=
  match sep with
  | [] => [l]
  | _ :: _ => pySplitAux sep l.length [] l

/-- Python `s.strip(c)` for a single strip character: remove every leading and
trailing occurrence of `c`. -/
def pyStrip (c : Char) (l : List Char) : List Char :=
  ((l.dropWhile (· == c)).reverse.dropWhile (· == c)).reverse

/-- Python `s.strip()` with no argument: remove leading and trailing
whitespace.  (`String.trim` computes the same characters through byte
positions, which does not reduce in the kernel; the model strips the character
list directly.) -/
def pyStripWs (s : String) : String :=
  String.mk
    (((s.toList.dropWhile Char.isWhitespace).reverse.dropWhile
        Char.isWhitespace).reverse)

/-- Python `s.lower()`: lower-case character by character.  (`String.toLower`
is the same map, through `String.mapAux`, which does not reduce in the
kernel.) -/
def pyLower (s : String) : String :=
  String.mk (s.toList.map Char.toLower)

/-- Python `sub in s` (substring containment) on lists of characters. -/
def pyContainsList (sub : List Char) : List Char → Bool
  | [] => List.isPrefixOf sub []
  | c :: rest => List.isPrefixOf sub (c :: rest) || pyContainsList sub rest

/-- Python `sub in s` on strings. -/
def pyContains (sub s : String) : Bool :=
  pyContainsList sub.toList s.toList

/-- Python truthiness of an `Optional[str]`: `None` and `""` are falsy. -/
def truthyStr (o : Option String) : Bool :=
  !((o.getD "") == "")

/-! ## Configuration (module-level constants of the source)

`TWITTER_ENABLED`, `MAX_HOURS_OLD` and `MAX_RESULTS` are read once from the
process environment; the model passes them as an explicit immutable `Config`. -/

/-- Source: `os.getenv('TWITTER_ENABLED', 'false').lower() == 'true'` (line 22). -/
def twitterEnabledOfEnv (v : Option String) : Bool :=
  pyLower (v.getD "false") == "true"

structure Config where
  enabled : Bool
  cookiesPath : String
  maxHoursOld : Int
  maxResults : Nat

/-- Source: `NEGATIVE_FILTERS` (lines 28-41). -/
def NEGATIVE_FILTERS : List String :=
  [ "[for hire]",
    "i am a developer",
    "i'm a developer",
    "i am available",
    "my portfolio",
    "hire me",
    "looking for work",
    "seeking work",
    "offering my services",
    "available for hire",
    "developer looking for",
    "open to work" ]

/-- Source: `SEARCH_QUERIES` (lines 44-49). -/
def SEARCH_QUERIES : List String :=
  [ "looking for developer",
    "hiring developer",
    "need developer",
    "looking for cofounder" ]

/-! ## Freshness and negative filters -/

/-- Source: `is_fresh` (lines 66-69): `posted_at > datetime.now(...) - timedelta(hours=MAX_HOURS_OLD)`.
Instants are seconds, so a window of `maxHoursOld` hours is `maxHoursOld * 3600`.
The source reads the global `MAX_HOURS_OLD` and calls `datetime.now`; the model
passes both explicitly. -/
def is_fresh (maxHoursOld now postedAt : Int) : Bool :=
  decide (now - maxHoursOld * 3600 < postedAt)

/-- Source: `matches_negative_filters` (lines 72-75):
`any(f.lower() in text.lower() for f in NEGATIVE_FILTERS)`.  The source reads
the global `NEGATIVE_FILTERS`; the model passes the filter list explicitly. -/
def matches_negative_filters (filters : List String) (text : String) : Bool :=
  filters.any fun f => pyContains (pyLower f) (pyLower text)

/-! ## Page / element model

A DOM element handle exposes the two fallible reads the source uses; a tweet
handle exposes scoped selector lookup.  `Except Unit` is a raised exception,
`Option` distinguishes "no match" / attribute absent. -/

structure Elem where
  innerText : Except Unit String
  getAttribute : String → Except Unit (Option String)

structure Tweet where
  querySelector : String → Except Unit (Option Elem)

structure Page where
  goto : String → Except Unit Unit
  waitForSelector : String → Except Unit Unit
  scroll : Except Unit Unit
  querySelectorAll : String → Except Unit (List Tweet)

/-- Ambient environment: the current clock instant and the external
`datetime.fromisoformat(time_str.replace('Z', '+00:00'))` parser, abstracted as
a partial function (parse failure raises, i.e. `none`). -/
structure Env where
  now : Int
  parseTime : String → Option Int

/-! ## SelectorRegistry (lines 106-128) -/

namespace SelectorRegistry

def TWEET_CONTAINERS : List String :=
  [ "article[data-testid=\"tweet\"]",
    "div[data-testid=\"cellInnerDiv\"] article",
    "[role=\"article\"]" ]

def TWEET_TEXT : List String :=
  [ "div[data-testid=\"tweetText\"]",
    "div[lang]" ]

def AUTHOR : List String :=
  [ "a[role=\"link\"]",
    "div[data-testid=\"User-Name\"] a" ]

def TIMESTAMP : List String :=
  [ "time",
    "[datetime]" ]

end SelectorRegistry

/-! ## RobustExtractor (lines 131-192)

Each `for selector in chain` loop body is one per-selector attempt whose
`try/except: continue` makes every failure land in the "try the next selector"
branch; the attempt is factored out as a `...FromSelector` function returning
`Option` (`none` = this selector yielded nothing, move on). -/

/-- One iteration of the `extract_text` loop (lines 141-148): locate the
sub-element, read `inner_text`, and accept iff the text is truthy and its
stripped form is longer than 5 characters, returning the stripped text.
Any raised exception is swallowed (`none`). -/
def textFromSelector (tweet : Tweet) (sel : String) : Option String :=
  match tweet.querySelector sel with
  | .error _ => none
  | .ok none => none
  | .ok (some elem) =>
    match elem.innerText with
    | .error _ => none
    | .ok text =>
      if text ≠ "" ∧ 5 < (pyStripWs text).length then some (pyStripWs text) else none

def extract_text_go (tweet : Tweet) : List String → Option String
  | [] => none
  | sel :: rest =>
    match textFromSelector tweet sel with
    | some v => some v
    | none => extract_text_go tweet rest

/-- Source: `extract_text` (lines 138-149). -/
def extract_text (tweet : Tweet) : Option String :=
  extract_text_go tweet SelectorRegistry.TWEET_TEXT

/-- Source: `href.strip('/').split('/')[0]` (line 159). -/
def authorOf (href : String) : String :=
  String.mk ((pySplit ['/'] (pyStrip '/' href.toList)).headD [])

/-- One iteration of the `extract_author` loop (lines 153-161): read the
`href` attribute and accept iff it is truthy. -/
def authorFromSelector (tweet : Tweet) (sel : String) : Option String :=
  match tweet.querySelector sel with
  | .error _ => none
  | .ok none => none
  | .ok (some elem) =>
    match elem.getAttribute "href" with
    | .error _ => none
    | .ok none => none
    | .ok (some href) =>
      if href = "" then none else some (authorOf href)

def extract_author_go (tweet : Tweet) : List String → String
  | [] => "Unknown"
  | sel :: rest =>
    match authorFromSelector tweet sel with
    | some a => a
    | none => extract_author_go tweet rest

/-- Source: `extract_author` (lines 151-162): falls back to `'Unknown'`. -/
def extract_author (tweet : Tweet) : String :=
  extract_author_go tweet SelectorRegistry.AUTHOR

/-- Source: `href.split('/status/')[-1].split('?')[0].split('/')[0]` (line 171). -/
def tweetIdOf (href : String) : String :=
  let afterStatus := (pySplit "/status/".toList href.toList).getLastD []
  let beforeQuery := (pySplit ['?'] afterStatus).headD []
  String.mk ((pySplit ['/'] beforeQuery).headD [])

/-- Source: `extract_url` (lines 164-176): single `try` block; any exception or missing
piece yields `(None, None)`. -/
def extract_url (tweet : Tweet) : Option String × Option String :=
  match tweet.querySelector "a[href*=\"/status/\"]" with
  | .error _ => (none, none)
  | .ok none => (none, none)
  | .ok (some linkElem) =>
    match linkElem.getAttribute "href" with
    | .error _ => (none, none)
    | .ok none => (none, none)
    | .ok (some href) =>
      if href ≠ "" ∧ pyContains "/status/" href then
        (some ("https://x.com" ++ href), some (tweetIdOf href))
      else (none, none)

/-- One iteration of the `extract_time` loop (lines 180-191): read the
`datetime` attribute; if truthy, attempt the ISO parse, whose failure is
swallowed by the inner `try` (continue to the next selector). -/
def timeFromSelector (env : Env) (tweet : Tweet) (sel : String) : Option Int :=
  match tweet.querySelector sel with
  | .error _ => none
  | .ok none => none
  | .ok (some elem) =>
    match elem.getAttribute "datetime" with
    | .error _ => none
    | .ok none => none
    | .ok (some timeStr) =>
      if timeStr = "" then none else env.parseTime timeStr

def extract_time_go (env : Env) (tweet : Tweet) : List String → Int
  | [] => env.now
  | sel :: rest =>
    match timeFromSelector env tweet sel with
    | some t => t
    | none => extract_time_go env tweet rest

/-- Source: `extract_time` (lines 178-192): falls back to `datetime.now()`. -/
def extract_time (env : Env) (tweet : Tweet) : Int :=
  extract_time_go env tweet SelectorRegistry.TIMESTAMP

/-! ## scrape_search (lines 195-279) -/

/-- The dictionary appended at lines 259-268.  `postedAt` keeps the instant
itself (the source serializes it with `isoformat`). -/
structure Record where
  source : String
  sourceId : String
  sourceUrl : String
  title : String
  content : String
  author : String
  subreddit : Option String
  postedAt : Int
deriving DecidableEq, Repr

/-- Source: `f"https://x.com/search?q={query}&src=typed_query&f=live"` (line 198). -/
def searchUrl (query : String) : String :=
  "https://x.com/search?q=" ++ query ++ "&src=typed_query&f=live"

/-- Source: `text[:100] + ('...' if len(text) > 100 else '')` (line 263). -/
def titleOf (text : String) : String :=
  (String.mk (text.toList.take 100)) ++ (if 100 < text.length then "..." else "")

/-- The tweet-container search loop (lines 221-230): try each container
selector; a raised exception or an empty (falsy) match list moves to the next
selector; the first non-empty match list wins. -/
def findTweets (page : Page) : List String → List Tweet
  | [] => []
  | sel :: rest =>
    match page.querySelectorAll sel with
    | .error _ => findTweets page rest
    | .ok found => if found.isEmpty then findTweets page rest else found

/-- The body of the per-tweet loop (lines 240-268): extract, validate required
fields, filter by freshness and negative keywords, and build the record.
`none` is a `continue`.  Every statement of the loop body sits inside the
per-tweet `try`, and in this model each extractor is total (all its fallible
steps are already handled selector-by-selector), so the per-tweet `except`
(lines 271-273) has nothing left to catch. -/
def processTweet (cfg : Config) (env : Env) (tweet : Tweet) : Option Record :=
  match extract_text tweet with
  | none => none
  | some text =>
    if text = "" then none
    else
      let author := extract_author tweet
      let p := extract_url tweet
      if !truthyStr p.1 || !truthyStr p.2 then none
      else
        let postedAt := extract_time env tweet
        if !is_fresh cfg.maxHoursOld env.now postedAt then none
        else if matches_negative_filters NEGATIVE_FILTERS text then none
        else some
          { source := "x",
            sourceId := p.2.getD "",
            sourceUrl := p.1.getD "",
            title := titleOf text,
            content := text,
            author := author,
            subreddit := none,
            postedAt := postedAt }

/-- The body of the outer `try` of `scrape_search` (lines 203-273), as an
`Except` computation.  A `.error` is an exception reaching the outer handler;
its payload is the `results` list at the raise point, which is still `[]` at
every reachable raise point: `page.goto` (line 207) and the scroll (line 218)
run before any append, `wait_for_selector` sits inside its own bare
`try/except` (lines 211-215) so its outcome only logs, the container loop
catches its own exceptions per selector, and inside the per-tweet loop the
per-tweet `try` catches everything.  A normal `return` is `.ok`. -/
def scrape_body (cfg : Config) (env : Env) (page : Page) (query : String) :
    Except (List Record) (List Record) :=
  match page.goto (searchUrl query) with
  | .error _ => .error []
  | .ok _ =>
    match page.scroll with
    | .error _ => .error []
    | .ok _ =>
      let tweets := findTweets page SelectorRegistry.TWEET_CONTAINERS
      if tweets.isEmpty then .ok []
      else .ok ((tweets.take cfg.maxResults).filterMap (processTweet cfg env))

/-- Result of one query: the records plus whether the outer `except` handler
of `scrape_search` ran `log_error` (line 276). -/
structure QueryResult where
  results : List Record
  errorLogged : Bool
deriving Repr

/-- Source: `scrape_search` (lines 195-279): the outer handler logs the error and the
function returns whatever `results` holds (lines 275-279). -/
def scrape_search (cfg : Config) (env : Env) (page : Page) (query : String) :
    QueryResult :=
  match scrape_body cfg env page query with
  | .ok rs => ⟨rs, false⟩
  | .error rs => ⟨rs, true⟩

/-! ## main (lines 305-399) -/

/-- The query loop of `main` (lines 366-374): `all_results.extend(tweets)`
per query, in order. -/
def run_queries (cfg : Config) (env : Env) (page : Page)
    (queries : List String) : List Record :=
  (queries.map fun q => (scrape_search cfg env page q).results).flatten

/-- The deduplication loop of `main` (lines 380-385): keep a record iff its
`sourceId` is truthy and not yet in `seen`. -/
def dedupAux (seen : List String) : List Record → List Record
  | [] => []
  | r :: rest =>
    if r.sourceId ≠ "" ∧ r.sourceId ∉ seen then
      r :: dedupAux (r.sourceId :: seen) rest
    else
      dedupAux seen rest

def dedup (rs : List Record) : List Record :=
  dedupAux [] rs

/-- The fallible collaborators of `main` outside the query loop.
`loadCookies` stands for `load_cookies_from_file` (any of: file missing, bad
JSON, no/insufficient cookies — all caught at lines 329-340).  `launchSetup`
stands for the Playwright start, browser launch, context creation,
`add_cookies`, stealth application and `new_page` (lines 345-364), any of
whose failures reaches the outer handler at line 394.  `closeBrowser` is
`browser.close()` (line 376). -/
structure World where
  loadCookies : Except Unit Unit
  launchSetup : Except Unit Page
  closeBrowser : Except Unit Unit
  env : Env

/-- Observable outcome of one run: the JSON arrays printed on stdout in order,
the exit status, whether a browser launch was attempted, and which queries the
loop processed. -/
structure RunOutcome where
  printed : List (List Record)
  exitCode : Nat
  launchedBrowser : Bool
  queriesRun : List String
deriving Repr

/-- Source: `main` (lines 305-399).  Branches in source order: the `TWITTER_ENABLED`
gate (316-319), the empty-`TWITTER_COOKIES_PATH` gate (321-324), cookie
loading with its handlers (326-340), the browsing `try` whose handler prints
`[]` and exits 1 (394-399), and the success path printing the deduplicated
aggregate and exiting 0 (391-392).  The per-query loop itself never raises
(`scrape_search` catches everything), so after a successful setup all of
`SEARCH_QUERIES` run. -/
def main (cfg : Config) (w : World) : RunOutcome :=
  if cfg.enabled = false then
    { printed := [[]], exitCode := 0, launchedBrowser := false, queriesRun := [] }
  else if cfg.cookiesPath = "" then
    { printed := [[]], exitCode := 1, launchedBrowser := false, queriesRun := [] }
  else
    match w.loadCookies with
    | .error _ =>
      { printed := [[]], exitCode := 1, launchedBrowser := false, queriesRun := [] }
    | .ok _ =>
      match w.launchSetup with
      | .error _ =>
        { printed := [[]], exitCode := 1, launchedBrowser := true, queriesRun := [] }
      | .ok page =>
        let all_results := run_queries cfg w.env page SEARCH_QUERIES
        match w.closeBrowser with
        | .error _ =>
          { printed := [[]], exitCode := 1, launchedBrowser := true,
            queriesRun := SEARCH_QUERIES }
        | .ok _ =>
          { printed := [dedup all_results], exitCode := 0, launchedBrowser := true,
            queriesRun := SEARCH_QUERIES }

/-! ## Structural lemmas -/

theorem pyContainsList_iff (sub l : List Char) :
    pyContainsList sub l = true ↔ sub <:+: l := by
  induction l with
  | nil => simp [pyContainsList, List.isPrefixOf_iff_prefix]
  | cons c rest ih =>
    simp [pyContainsList, List.isPrefixOf_iff_prefix, ih, List.infix_cons_iff]

theorem pyContains_iff (sub s : String) :
    pyContains sub s = true ↔ sub.toList <:+: s.toList :=
  pyContainsList_iff sub.toList s.toList

theorem pySplitAux_single_headD (c : Char) (fuel : Nat) :
    ∀ (acc l : List Char), l.length ≤ fuel →
      (pySplitAux [c] fuel acc l).headD [] =
        acc.reverse ++ l.takeWhile (· != c) := by
  induction fuel with
  | zero =>
    intro acc l h
    obtain rfl : l = [] := List.eq_nil_of_length_eq_zero (Nat.le_zero.mp h)
    simp [pySplitAux]
  | succ fuel ih =>
    intro acc l h
    match l with
    | [] => simp [pySplitAux]
    | c' :: rest =>
      by_cases hc : c = c'
      · subst hc
        simp [pySplitAux, List.isPrefixOf, List.takeWhile_cons]
      · have hb : (c == c') = false := by simp [hc]
        have hb2 : (c' != c) = true := by simp [Ne.symm hc]
        simp only [pySplitAux, List.isPrefixOf, hb, Bool.false_and, Bool.and_self,
          if_neg Bool.false_ne_true, List.takeWhile_cons, hb2, if_pos rfl]
        rw [ih (c' :: acc) rest (by simpa using Nat.le_of_succ_le_succ h)]
        simp

theorem pySplit_single_headD (c : Char) (l : List Char) :
    (pySplit [c] l).headD [] = l.takeWhile (· != c) := by
  cases l with
  | nil => simp [pySplit, pySplitAux]
  | cons c' rest =>
    simpa using pySplitAux_single_headD c (c' :: rest).length [] (c' :: rest) le_rfl

theorem takeWhile_and_comm (p q : Char → Bool) (l : List Char) :
    (l.takeWhile q).takeWhile p = l.takeWhile fun ch => q ch && p ch := by
  induction l with
  | nil => simp
  | cons c rest ih =>
    by_cases hq : q c
    · by_cases hp : p c <;> simp [List.takeWhile_cons, hq, hp, ih]
    · simp [List.takeWhile_cons, hq]

/-- The two single-character splits of line 171 take the trailing segment of
the last scan chunk up to the first `'?'` or `'/'`, whichever comes first. -/
theorem tweetIdOf_eq_takeWhile (href : String) :
    tweetIdOf href = String.mk
      (((pySplit "/status/".toList href.toList).getLastD []).takeWhile
        fun ch => ch != '?' && ch != '/') := by
  unfold tweetIdOf
  simp only [pySplit_single_headD, takeWhile_and_comm]

theorem extract_text_go_eq_findSome (tweet : Tweet) (chain : List String) :
    extract_text_go tweet chain = chain.findSome? (textFromSelector tweet) := by
  induction chain with
  | nil => rfl
  | cons s rest ih =>
    simp only [extract_text_go, List.findSome?_cons]
    cases textFromSelector tweet s <;> simp [ih]

theorem extract_author_go_exhausted (tweet : Tweet) (chain : List String)
    (h : ∀ s ∈ chain, authorFromSelector tweet s = none) :
    extract_author_go tweet chain = "Unknown" := by
  induction chain with
  | nil => rfl
  | cons s rest ih =>
    have hs := h s (by simp)
    simp only [extract_author_go, hs]
    exact ih fun x hx => h x (by simp [hx])

theorem extract_time_go_exhausted (env : Env) (tweet : Tweet) (chain : List String)
    (h : ∀ s ∈ chain, timeFromSelector env tweet s = none) :
    extract_time_go env tweet chain = env.now := by
  induction chain with
  | nil => rfl
  | cons s rest ih =>
    have hs := h s (by simp)
    simp only [extract_time_go, hs]
    exact ih fun x hx => h x (by simp [hx])

theorem scrape_body_error {cfg : Config} {env : Env} {page : Page} {q : String}
    {e : List Record} (h : scrape_body cfg env page q = .error e) : e = [] := by
  unfold scrape_body at h
  cases hg : page.goto (searchUrl q) with
  | error u => simp only [hg] at h; exact (Except.error.inj h).symm
  | ok u =>
    simp only [hg] at h
    cases hs : page.scroll with
    | error v => simp only [hs] at h; exact (Except.error.inj h).symm
    | ok v =>
      simp only [hs] at h
      split at h <;> exact absurd h (by simp)

theorem scrape_body_ok {cfg : Config} {env : Env} {page : Page} {q : String}
    {rs : List Record} (h : scrape_body cfg env page q = .ok rs) :
    rs = [] ∨
      rs = ((findTweets page SelectorRegistry.TWEET_CONTAINERS).take
        cfg.maxResults).filterMap (processTweet cfg env) := by
  unfold scrape_body at h
  cases hg : page.goto (searchUrl q) with
  | error u => simp only [hg] at h; exact absurd h (by simp)
  | ok u =>
    simp only [hg] at h
    cases hs : page.scroll with
    | error v => simp only [hs] at h; exact absurd h (by simp)
    | ok v =>
      simp only [hs] at h
      split at h
      · exact Or.inl (Except.ok.inj h).symm
      · exact Or.inr (Except.ok.inj h).symm

theorem processTweet_some_inv {cfg : Config} {env : Env} {tweet : Tweet}
    {r : Record} (h : processTweet cfg env tweet = some r) :
    r.sourceId ≠ "" ∧ r.sourceUrl ≠ "" ∧ r.content ≠ "" := by
  unfold processTweet at h
  cases ht : extract_text tweet with
  | none => rw [ht] at h; exact absurd h (by simp)
  | some text =>
    rw [ht] at h
    simp only at h
    split at h
    · exact absurd h (by simp)
    next hne =>
      split at h
      · exact absurd h (by simp)
      next hurl =>
        split at h
        · exact absurd h (by simp)
        split at h
        · exact absurd h (by simp)
        obtain rfl : _ = r := Option.some.inj h
        simp only [truthyStr, Bool.or_eq_true, Bool.not_eq_true, Bool.not_not,
          beq_eq_false_iff_ne, ne_eq, not_or] at hurl
        exact ⟨hurl.2, hurl.1, hne⟩

theorem mem_scrape_search_results {cfg : Config} {env : Env} {page : Page}
    {q : String} {r : Record}
    (h : r ∈ (scrape_search cfg env page q).results) :
    ∃ tweet, processTweet cfg env tweet = some r := by
  unfold scrape_search at h
  cases hb : scrape_body cfg env page q with
  | error e =>
    simp only [hb] at h
    rw [scrape_body_error hb] at h
    exact absurd h (by simp)
  | ok rs =>
    simp only [hb] at h
    rcases scrape_body_ok hb with rfl | rfl
    · exact absurd h (by simp)
    · obtain ⟨tweet, _, ht⟩ := List.mem_filterMap.mp h
      exact ⟨tweet, ht⟩

theorem run_queries_append (cfg : Config) (env : Env) (page : Page)
    (qs1 qs2 : List String) :
    run_queries cfg env page (qs1 ++ qs2) =
      run_queries cfg env page qs1 ++ run_queries cfg env page qs2 := by
  simp [run_queries]

theorem mem_run_queries {cfg : Config} {env : Env} {page : Page}
    {qs : List String} {r : Record} (h : r ∈ run_queries cfg env page qs) :
    ∃ q ∈ qs, r ∈ (scrape_search cfg env page q).results := by
  unfold run_queries at h
  obtain ⟨l, hl, hr⟩ := List.mem_flatten.mp h
  obtain ⟨q, hq, rfl⟩ := List.mem_map.mp hl
  exact ⟨q, hq, hr⟩

theorem run_queries_record_inv {cfg : Config} {env : Env} {page : Page}
    {qs : List String} {r : Record} (h : r ∈ run_queries cfg env page qs) :
    r.sourceId ≠ "" ∧ r.sourceUrl ≠ "" ∧ r.content ≠ "" := by
  obtain ⟨q, _, hr⟩ := mem_run_queries h
  obtain ⟨tweet, ht⟩ := mem_scrape_search_results hr
  exact processTweet_some_inv ht

/-- A tweet element whose content extraction yields nothing, or whose
URL/id pair is falsy, produces no record (`continue` at lines 243-244 and
249-250). -/
theorem processTweet_skip {cfg : Config} {env : Env} {tweet : Tweet}
    (h : extract_text tweet = none ∨ truthyStr (extract_url tweet).1 = false ∨
      truthyStr (extract_url tweet).2 = false) :
    processTweet cfg env tweet = none := by
  unfold processTweet
  cases ht : extract_text tweet with
  | none => rfl
  | some text =>
    rcases h with h | h | h
    · rw [ht] at h; cases h
    all_goals
      by_cases hemp : text = ""
      · simp [hemp]
      · have hcond : (!truthyStr (extract_url tweet).1 ||
            !truthyStr (extract_url tweet).2) = true := by
          simp [h]
        simp [hemp, hcond]

theorem extract_text_go_some {tweet : Tweet} {chain : List String} {v : String}
    (h : extract_text_go tweet chain = some v) :
    ∃ sel ∈ chain, textFromSelector tweet sel = some v := by
  induction chain with
  | nil => cases h
  | cons s rest ih =>
    unfold extract_text_go at h
    cases hs : textFromSelector tweet s with
    | some w =>
      rw [hs] at h
      exact ⟨s, by simp, by rw [hs]; exact h⟩
    | none =>
      rw [hs] at h
      obtain ⟨sel, hmem, hsel⟩ := ih h
      exact ⟨sel, by simp [hmem], hsel⟩

theorem textFromSelector_some {tweet : Tweet} {sel : String} {v : String}
    (h : textFromSelector tweet sel = some v) :
    ∃ elem text, tweet.querySelector sel = .ok (some elem) ∧
      elem.innerText = .ok text ∧ v = pyStripWs text ∧ 5 < v.length := by
  unfold textFromSelector at h
  cases hq : tweet.querySelector sel with
  | error u => rw [hq] at h; cases h
  | ok o =>
    rw [hq] at h
    cases o with
    | none => cases h
    | some elem =>
      simp only at h
      cases hi : elem.innerText with
      | error u => rw [hi] at h; cases h
      | ok text =>
        rw [hi] at h
        simp only at h
        by_cases hcond : text ≠ "" ∧ 5 < (pyStripWs text).length
        · rw [if_pos hcond] at h
          obtain rfl : pyStripWs text = v := Option.some.inj h
          exact ⟨elem, text, rfl, hi, rfl, hcond.2⟩
        · rw [if_neg hcond] at h; cases h

theorem dedupAux_sublist (seen : List String) (l : List Record) :
    List.Sublist (dedupAux seen l) l := by
  induction l generalizing seen with
  | nil => simp [dedupAux]
  | cons r rest ih =>
    unfold dedupAux
    split
    · exact (ih _).cons₂ r
    · exact (ih _).cons r

theorem dedupAux_filter (idv : String) :
    ∀ (l : List Record) (seen : List String), (∀ r ∈ l, r.sourceId ≠ "") →
      (dedupAux seen l).filter (fun r => r.sourceId == idv) =
        if idv ∈ seen then []
        else (l.filter fun r => r.sourceId == idv).take 1 := by
  intro l
  induction l with
  | nil => intro seen _; simp [dedupAux]
  | cons r rest ih =>
    intro seen h
    have hrid : r.sourceId ≠ "" := h r (by simp)
    have hrest : ∀ x ∈ rest, x.sourceId ≠ "" := fun x hx => h x (by simp [hx])
    unfold dedupAux
    by_cases hmem : r.sourceId ∈ seen
    · rw [if_neg (by tauto)]
      rw [ih seen hrest]
      by_cases hid : idv ∈ seen
      · simp [hid]
      · have hne : (r.sourceId == idv) = false := by
          simp only [beq_eq_false_iff_ne, ne_eq]
          exact fun hEq => hid (hEq ▸ hmem)
        simp [hid, List.filter_cons, hne]
    · rw [if_pos ⟨hrid, hmem⟩]
      by_cases hid : idv = r.sourceId
      · rw [List.filter_cons_of_pos (by simp [hid]), ih (r.sourceId :: seen) hrest,
          if_pos (by simp [hid]), if_neg (by rw [hid]; exact hmem),
          List.filter_cons_of_pos (by simp [hid])]
        simp
      · have hne : (r.sourceId == idv) = false := by
          simp only [beq_eq_false_iff_ne, ne_eq]
          exact fun hEq => hid hEq.symm
        rw [List.filter_cons_of_neg (by simp [hne]), ih (r.sourceId :: seen) hrest,
          List.filter_cons_of_neg (by simp [hne])]
        exact if_congr (by simp [hid]) rfl rfl

/-! ## Claims -/

/-- C4: for every window size in hours, current time and timestamp, the
freshness predicate is true iff the timestamp is strictly greater than the
current time minus the window; in particular a timestamp 1 hour before now is
fresh for a 24-hour window and a timestamp 25 hours before now is not. -/
theorem C4_is_fresh_window :
    (∀ (hrs now t : Int), is_fresh hrs now t = true ↔ now - hrs * 3600 < t) ∧
    (∀ now : Int, is_fresh 24 now (now - 1 * 3600) = true) ∧
    (∀ now : Int, is_fresh 24 now (now - 25 * 3600) = false) := by
  refine ⟨fun hrs now t => by simp [is_fresh], fun now => ?_, fun now => ?_⟩
  · simp only [is_fresh, decide_eq_true_eq]; omega
  · simp only [is_fresh, decide_eq_false_iff_not]; omega

theorem C4_witness :
    is_fresh 24 0 (0 - 1 * 3600) = true ∧ is_fresh 24 0 (0 - 25 * 3600) = false :=
  ⟨C4_is_fresh_window.2.1 0, C4_is_fresh_window.2.2 0⟩

/-- C5: the negative-filter predicate is true iff at least one filter entry
occurs as a case-insensitive substring of the text; in particular it fires on
"Looking for a developer, I am a developer myself" against the configured
`NEGATIVE_FILTERS`. -/
theorem C5_negative_filter_substring :
    (∀ (filters : List String) (text : String),
      matches_negative_filters filters text = true ↔
        ∃ f ∈ filters, (pyLower f).toList <:+: (pyLower text).toList) ∧
    matches_negative_filters NEGATIVE_FILTERS
      "Looking for a developer, I am a developer myself" = true := by
  constructor
  · intro filters text
    simp [matches_negative_filters, List.any_eq_true, pyContains_iff]
  · decide

theorem C5_witness :
    ∃ f ∈ NEGATIVE_FILTERS, (pyLower f).toList <:+:
      (pyLower "Looking for a developer, I am a developer myself").toList :=
  (C5_negative_filter_substring.1 NEGATIVE_FILTERS
    "Looking for a developer, I am a developer myself").mp
    C5_negative_filter_substring.2

/-- C6: content extraction walks the selector chain in order and returns the
stripped text of the first selector whose lookup succeeds with stripped length
greater than 5; per-selector failures are swallowed and the next selector is
tried, so when only the second selector yields a value, that value is
returned; every returned value is the stripped text of some chain selector and
longer than 5 characters. -/
theorem C6_text_selector_fallback (tweet : Tweet) :
    extract_text tweet =
      SelectorRegistry.TWEET_TEXT.findSome? (textFromSelector tweet) ∧
    (∀ v, textFromSelector tweet "div[data-testid=\"tweetText\"]" = none →
      textFromSelector tweet "div[lang]" = some v →
      extract_text tweet = some v) ∧
    (∀ v, extract_text tweet = some v →
      ∃ sel ∈ SelectorRegistry.TWEET_TEXT, ∃ elem text,
        tweet.querySelector sel = .ok (some elem) ∧
        elem.innerText = .ok text ∧ v = pyStripWs text ∧ 5 < v.length) := by
  refine ⟨extract_text_go_eq_findSome tweet _, fun v h1 h2 => ?_, fun v hv => ?_⟩
  · show extract_text_go tweet SelectorRegistry.TWEET_TEXT = some v
    simp [SelectorRegistry.TWEET_TEXT, extract_text_go, h1, h2]
  · obtain ⟨sel, hmem, hsel⟩ := extract_text_go_some hv
    exact ⟨sel, hmem, textFromSelector_some hsel⟩

/-- C7: URL/id extraction succeeds only by finding the status-marker anchor
whose href contains the marker; the URL is the site origin prefixed to the
href and the id is the segment after the last marker match up to the next
query separator or slash; a falsy URL or id makes the caller skip the
element. -/
theorem C7_url_id_extraction :
    (∀ (tweet : Tweet) (u idv : String),
      extract_url tweet = (some u, some idv) →
      ∃ elem href, tweet.querySelector "a[href*=\"/status/\"]" = .ok (some elem) ∧
        elem.getAttribute "href" = .ok (some href) ∧ href ≠ "" ∧
        pyContains "/status/" href = true ∧
        u = "https://x.com" ++ href ∧
        idv = String.mk
          (((pySplit "/status/".toList href.toList).getLastD []).takeWhile
            fun ch => ch != '?' && ch != '/')) ∧
    (∀ (cfg : Config) (env : Env) (tweet : Tweet),
      (truthyStr (extract_url tweet).1 = false ∨
        truthyStr (extract_url tweet).2 = false) →
      processTweet cfg env tweet = none) := by
  constructor
  · intro tweet u idv h
    unfold extract_url at h
    cases hq : tweet.querySelector "a[href*=\"/status/\"]" with
    | error e => rw [hq] at h; cases h
    | ok o =>
      rw [hq] at h
      cases o with
      | none => cases h
      | some linkElem =>
        simp only at h
        cases ha : linkElem.getAttribute "href" with
        | error e => rw [ha] at h; cases h
        | ok oh =>
          rw [ha] at h
          cases oh with
          | none => cases h
          | some href =>
            simp only at h
            by_cases hcond : href ≠ "" ∧ pyContains "/status/" href = true
            · rw [if_pos hcond] at h
              have h1 : some ("https://x.com" ++ href) = some u := congrArg Prod.fst h
              have h2 : some (tweetIdOf href) = some idv := congrArg Prod.snd h
              refine ⟨linkElem, href, rfl, ha, hcond.1, hcond.2, ?_, ?_⟩
              · exact (Option.some.inj h1).symm
              · rw [← tweetIdOf_eq_takeWhile]
                exact (Option.some.inj h2).symm
            · rw [if_neg hcond] at h; cases h
  · intro cfg env tweet h
    exact processTweet_skip (Or.inr h)

/-- C8: when every selector of the chain is exhausted without yielding a
value, author extraction returns the sentinel "Unknown" and timestamp
extraction returns the extraction-time clock value. -/
theorem C8_optional_field_defaults (env : Env) (tweet : Tweet) :
    ((∀ s ∈ SelectorRegistry.AUTHOR, authorFromSelector tweet s = none) →
      extract_author tweet = "Unknown") ∧
    ((∀ s ∈ SelectorRegistry.TIMESTAMP, timeFromSelector env tweet s = none) →
      extract_time env tweet = env.now) :=
  ⟨fun h => extract_author_go_exhausted tweet _ h,
   fun h => extract_time_go_exhausted env tweet _ h⟩

/-- C1: an exception escaping the body of a query (steps 1-5: navigation,
content wait, scrolling, container lookup, per-element extraction) leaves that
query with an empty result list and a logged error, and every other query of
the run still contributes its own results: the aggregate over a query list
containing the failing query is exactly the aggregate over the remaining
queries. -/
theorem C1_query_exception_downgraded (cfg : Config) (env : Env) (page : Page)
    (q : String) (h : ∃ e, scrape_body cfg env page q = .error e) :
    (scrape_search cfg env page q).results = [] ∧
    (scrape_search cfg env page q).errorLogged = true ∧
    ∀ qs1 qs2, run_queries cfg env page (qs1 ++ q :: qs2) =
      run_queries cfg env page qs1 ++ run_queries cfg env page qs2 := by
  obtain ⟨e, he⟩ := h
  obtain rfl : e = [] := scrape_body_error he
  have hs : scrape_search cfg env page q = ⟨[], true⟩ := by
    unfold scrape_search; rw [he]
  refine ⟨by rw [hs], by rw [hs], fun qs1 qs2 => ?_⟩
  have hq : run_queries cfg env page (q :: qs2) = run_queries cfg env page qs2 := by
    unfold run_queries
    simp [hs]
  rw [run_queries_append, hq]

/-- C2: over the aggregate collected across the run's queries, deduplication
returns a subsequence of the aggregate (so relative order of the retained
first occurrences is preserved) that contains, for every source identifier,
exactly the first-encountered record with that identifier — later records
with an already-seen identifier are dropped. -/
theorem C2_dedup_first_occurrence (cfg : Config) (env : Env) (page : Page)
    (qs : List String) :
    List.Sublist (dedup (run_queries cfg env page qs))
      (run_queries cfg env page qs) ∧
    ∀ idv, (dedup (run_queries cfg env page qs)).filter
        (fun r => r.sourceId == idv) =
      ((run_queries cfg env page qs).filter
        (fun r => r.sourceId == idv)).take 1 := by
  refine ⟨dedupAux_sublist [] _, fun idv => ?_⟩
  rw [dedup, dedupAux_filter idv _ []
    (fun r hr => (run_queries_record_inv hr).1)]
  simp

/-- C3: every record a query emits — hence every record in any array the run
prints — has a non-empty source identifier, source URL and content, and a
post element whose content extraction or URL/identifier extraction fails is
skipped entirely, producing no record. -/
theorem C3_records_complete :
    (∀ (cfg : Config) (env : Env) (page : Page) (q : String) (r : Record),
      r ∈ (scrape_search cfg env page q).results →
      r.sourceId ≠ "" ∧ r.sourceUrl ≠ "" ∧ r.content ≠ "") ∧
    (∀ (cfg : Config) (w : World) (out : List Record) (r : Record),
      out ∈ (main cfg w).printed → r ∈ out →
      r.sourceId ≠ "" ∧ r.sourceUrl ≠ "" ∧ r.content ≠ "") ∧
    (∀ (cfg : Config) (env : Env) (tweet : Tweet),
      (extract_text tweet = none ∨ truthyStr (extract_url tweet).1 = false ∨
        truthyStr (extract_url tweet).2 = false) →
      processTweet cfg env tweet = none) := by
  refine ⟨?_, ?_, fun cfg env tweet h => processTweet_skip h⟩
  · intro cfg env page q r hr
    obtain ⟨tweet, ht⟩ := mem_scrape_search_results hr
    exact processTweet_some_inv ht
  · intro cfg w out r hout hr
    unfold main at hout
    split at hout
    · obtain rfl : out = [] := by simpa using hout
      cases hr
    split at hout
    · obtain rfl : out = [] := by simpa using hout
      cases hr
    split at hout
    · obtain rfl : out = [] := by simpa using hout
      cases hr
    split at hout
    · obtain rfl : out = [] := by simpa using hout
      cases hr
    split at hout
    · obtain rfl : out = [] := by simpa using hout
      cases hr
    · obtain rfl : out = dedup _ := by simpa using hout
      exact run_queries_record_inv ((dedupAux_sublist [] _).subset hr)

/-- C9: the run always prints exactly one JSON array; whenever it completes
with a non-zero status the printed array is empty; and a fatal top-level
failure — the browser/page setup failing, or the browser close failing after
the queries ran — yields exactly the empty array with exit status 1, with no
partial results. -/
theorem C9_fatal_failure_empty_output (cfg : Config) (w : World) :
    (main cfg w).printed.length = 1 ∧
    ((main cfg w).exitCode ≠ 0 → (main cfg w).printed = [[]]) ∧
    (cfg.enabled = true → cfg.cookiesPath ≠ "" → w.loadCookies = .ok () →
      w.launchSetup = .error () →
      main cfg w =
        { printed := [[]], exitCode := 1, launchedBrowser := true,
          queriesRun := [] }) ∧
    (∀ page, cfg.enabled = true → cfg.cookiesPath ≠ "" →
      w.loadCookies = .ok () → w.launchSetup = .ok page →
      w.closeBrowser = .error () →
      main cfg w =
        { printed := [[]], exitCode := 1, launchedBrowser := true,
          queriesRun := SEARCH_QUERIES }) := by
  cases he : cfg.enabled with
  | false => simp [main, he]
  | true =>
    by_cases hp : cfg.cookiesPath = ""
    · simp [main, he, hp]
    cases hl : w.loadCookies with
    | error u => simp [main, he, hp, hl]
    | ok u =>
      cases hsetup : w.launchSetup with
      | error u2 => simp [main, he, hp, hl, hsetup]
      | ok page =>
        cases hclose : w.closeBrowser with
        | error u3 => simp [main, he, hp, hl, hsetup, hclose]
        | ok u3 => simp [main, he, hp, hl, hsetup, hclose]

/-- C10: when the enable flag is not the case-insensitive string "true" (with
"false" as the default when unset), the run prints a single empty JSON array
and exits with status 0, without attempting a browser launch or running any
query. -/
theorem C10_disabled_early_exit (v : Option String) (cfg : Config) (w : World)
    (henb : cfg.enabled = twitterEnabledOfEnv v)
    (h : pyLower (v.getD "false") ≠ "true") :
    main cfg w =
      { printed := [[]], exitCode := 0, launchedBrowser := false,
        queriesRun := [] } := by
  have hof : cfg.enabled = false := by
    rw [henb]; unfold twitterEnabledOfEnv; simp [h]
  simp [main, hof]

/-! ## Concrete fixtures for the witnesses -/

/-- A text element carrying an innocuous hiring-intent content string. -/
def wTextElem : Elem :=
  ⟨.ok " We need a rust developer for our new startup ", fun _ => .error ()⟩

def wAuthorElem : Elem :=
  ⟨.error (), fun a => if a = "href" then .ok (some "/alice") else .ok none⟩

def wLinkElem : Elem :=
  ⟨.error (),
   fun a => if a = "href" then .ok (some "/alice/status/777") else .ok none⟩

def wTimeElem : Elem :=
  ⟨.error (),
   fun a => if a = "datetime" then .ok (some "2024-01-01T00:00:00Z") else .ok none⟩

/-- A tweet element on which every extractor succeeds. -/
def wTweet : Tweet := ⟨fun sel =>
  if sel = "div[data-testid=\"tweetText\"]" then .ok (some wTextElem)
  else if sel = "a[role=\"link\"]" then .ok (some wAuthorElem)
  else if sel = "a[href*=\"/status/\"]" then .ok (some wLinkElem)
  else if sel = "time" then .ok (some wTimeElem)
  else .ok none⟩

def wEnv : Env :=
  ⟨100, fun s => if s = "2024-01-01T00:00:00Z" then some 100 else none⟩

def wCfg : Config := ⟨true, "cookies.json", 24, 20⟩

/-- A page on which one tweet is found and everything succeeds. -/
def wPage : Page :=
  ⟨fun _ => .ok (), fun _ => .ok (), .ok (),
   fun sel =>
     if sel = "article[data-testid=\"tweet\"]" then .ok [wTweet] else .ok []⟩

/-- The record `scrape_search` produces from `wTweet`. -/
def wRecord : Record :=
  { source := "x", sourceId := "777",
    sourceUrl := "https://x.com/alice/status/777",
    title := "We need a rust developer for our new startup",
    content := "We need a rust developer for our new startup",
    author := "alice", subreddit := none, postedAt := 100 }

/-- A page whose navigation call always raises (e.g. a timeout at line 207). -/
def failPage : Page :=
  ⟨fun _ => .error (), fun _ => .ok (), .ok (), fun _ => .ok []⟩

def elemLang : Elem := ⟨.ok "  fallback tweet text  ", fun _ => .ok none⟩

/-- A tweet whose first text selector raises and whose second one matches. -/
def tweet6 : Tweet :=
  ⟨fun sel => if sel = "div[lang]" then .ok (some elemLang) else .error ()⟩

def linkElem7 : Elem :=
  ⟨.error (),
   fun a => if a = "href" then .ok (some "/bob/status/4242?src=x") else .ok none⟩

def tweet7 : Tweet :=
  ⟨fun sel =>
    if sel = "a[href*=\"/status/\"]" then .ok (some linkElem7) else .ok none⟩

/-- A tweet on which every selector lookup finds nothing. -/
def emptyTweet : Tweet := ⟨fun _ => .ok none⟩

/-- A world whose browser/page setup fails. -/
def fatalWorld : World := ⟨.ok (), .error (), .ok (), wEnv⟩

def disabledCfg : Config := ⟨false, "", 24, 20⟩

theorem C1_witness :
    (scrape_search wCfg wEnv failPage "hiring developer").results = [] ∧
    (scrape_search wCfg wEnv failPage "hiring developer").errorLogged = true ∧
    run_queries wCfg wEnv failPage
        (["looking for developer"] ++ "hiring developer" :: ["need developer"]) =
      run_queries wCfg wEnv failPage ["looking for developer"] ++
        run_queries wCfg wEnv failPage ["need developer"] := by
  obtain ⟨h1, h2, h3⟩ :=
    C1_query_exception_downgraded wCfg wEnv failPage "hiring developer" ⟨[], rfl⟩
  exact ⟨h1, h2, h3 ["looking for developer"] ["need developer"]⟩

theorem C3_witness :
    wRecord ∈ (scrape_search wCfg wEnv wPage "need developer").results ∧
    wRecord.sourceId ≠ "" ∧ wRecord.sourceUrl ≠ "" ∧ wRecord.content ≠ "" := by
  have hmem : wRecord ∈ (scrape_search wCfg wEnv wPage "need developer").results := by
    decide
  exact ⟨hmem, C3_records_complete.1 wCfg wEnv wPage "need developer" wRecord hmem⟩

theorem C6_witness : extract_text tweet6 = some "fallback tweet text" :=
  (C6_text_selector_fallback tweet6).2.1 "fallback tweet text" rfl (by decide)

theorem C7_witness :
    ∃ elem href, tweet7.querySelector "a[href*=\"/status/\"]" = .ok (some elem) ∧
      elem.getAttribute "href" = .ok (some href) ∧ href ≠ "" ∧
      pyContains "/status/" href = true ∧
      "https://x.com/bob/status/4242?src=x" = "https://x.com" ++ href ∧
      "4242" = String.mk
        (((pySplit "/status/".toList href.toList).getLastD []).takeWhile
          fun ch => ch != '?' && ch != '/') :=
  C7_url_id_extraction.1 tweet7 "https://x.com/bob/status/4242?src=x" "4242"
    (by decide)

theorem C8_witness :
    extract_author emptyTweet = "Unknown" ∧ extract_time wEnv emptyTweet = 100 :=
  ⟨(C8_optional_field_defaults wEnv emptyTweet).1 (fun _ _ => rfl),
   (C8_optional_field_defaults wEnv emptyTweet).2 (fun _ _ => rfl)⟩

theorem C9_witness :
    main wCfg fatalWorld =
      { printed := [[]], exitCode := 1, launchedBrowser := true,
        queriesRun := [] } :=
  (C9_fatal_failure_empty_output wCfg fatalWorld).2.2.1 rfl (by decide) rfl rfl

theorem C10_witness :
    main disabledCfg fatalWorld =
      { printed := [[]], exitCode := 0, launchedBrowser := false,
        queriesRun := [] } :=
  C10_disabled_early_exit (some "0") disabledCfg fatalWorld rfl (by decide)

end TwitterFetcher
